import Mathlib

/-!
Shallow embedding of `vllm/entrypoints/runpod/api_server.py` (runpod/vllm).

The file models the request lifecycle and streaming-translation layer of the
RunPod vLLM OpenAI-compatible gateway: prompt assembly from chat history,
model-name and context-length validation, the stream generators that turn
engine `RequestOutput` snapshots into SSE delta frames, the non-streaming
drain loop with disconnect detection, logprobs rendering, and the dual-mode
(true-stream / fake-stream) response dispatch.

External collaborators (the vLLM engine, the tokenizer, the fastchat
conversation-template renderer, pydantic JSON rendering, FastAPI transport)
are modelled as function parameters or as explicit data (a list of engine
snapshots, a disconnect oracle, a call log).  Per-token logprob values are
floats in the source; they are carried here as an arbitrary type `α` since
no control flow inspects their numeric value.
-/

namespace RunpodVLLM

/-- One output sequence inside an engine snapshot
(`vllm.outputs.CompletionOutput`): cumulative text, cumulative token ids,
cumulative per-token logprob maps (each a map token-id → logprob, modelled
as an association list), and an optional finish reason. -/
structure CompletionOutput (α : Type) where
  index : Nat
  text : String
  token_ids : List Nat
  logprobs : List (List (Nat × α))
  finish_reason : Option String
deriving DecidableEq

/-- One engine snapshot (`vllm.outputs.RequestOutput`): the prompt token ids
and the current state of every output sequence. -/
structure RequestOutput (α : Type) where
  prompt_token_ids : List Nat
  outputs : List (CompletionOutput α)
deriving DecidableEq

/-- OpenAI-style logprobs block (`vllm.entrypoints.openai.protocol.LogProbs`).
All four lists start empty and are appended to in lockstep by
`create_logprobs`.  `token_logprobs` entries are `Option α` because the
source reads `id_logprob[token_id]` from a dict, which can fail. -/
structure LogProbs (α : Type) where
  text_offset : List Nat
  token_logprobs : List (Option α)
  tokens : List String
  top_logprobs : List (List (String × α))
deriving DecidableEq

/-- The `LogProbs()` value with pydantic defaults: all lists empty. -/
def LogProbs.empty {α : Type} : LogProbs α := ⟨[], [], [], []⟩

/-- The loop body of `create_logprobs` (api_server.py lines 180-194): for each
`(token_id, id_logprob)` pair append the rendered token, its logprob, the
next text offset (the initial offset for the first entry, otherwise the last
offset plus the char length of the previously rendered token), and the
alternative-logprob map.  `tok` models `tokenizer.convert_ids_to_tokens`. -/
def create_logprobs_loop {α : Type} (tok : Nat → String) (initial_text_offset : Nat) :
    List (Nat × List (Nat × α)) → LogProbs α → Nat → LogProbs α
  | [], acc, _ => acc
  | (token_id, id_logprob) :: rest, acc, last_token_len =>
    let token := tok token_id
    let next_offset :=
      match acc.text_offset.getLast? with
      | none => initial_text_offset
      | some last => last + last_token_len
    let acc' : LogProbs α :=
      { text_offset := acc.text_offset ++ [next_offset]
        token_logprobs := acc.token_logprobs ++ [id_logprob.lookup token_id]
        tokens := acc.tokens ++ [token]
        top_logprobs := acc.top_logprobs ++ [id_logprob.map (fun p => (tok p.1, p.2))] }
    create_logprobs_loop tok initial_text_offset rest acc' token.length

/-- Embedding of `create_logprobs` (api_server.py lines 174-195): zip the token ids with
their logprob maps and run the loop starting from an empty `LogProbs` and
`last_token_len = 0`. -/
def create_logprobs {α : Type} (tok : Nat → String) (token_ids : List Nat)
    (id_logprobs : List (List (Nat × α))) (initial_text_offset : Nat) : LogProbs α :=
  create_logprobs_loop tok initial_text_offset (token_ids.zip id_logprobs) LogProbs.empty 0

/-! ## Stream frames -/

/-- One SSE frame of the chat streaming response.  `role_delta i` is the
`data:` frame holding `DeltaMessage(role="assistant")` for index `i`
(lines 273-283); `delta i t r` is the frame built by
`create_stream_response_json(index=i, text=t, finish_reason=r)`
(lines 251-269); `done` is the literal frame `"data: [DONE]\n\n"`. -/
inductive ChatFrame where
  | role_delta (index : Nat)
  | delta (index : Nat) (content : String) (finish_reason : Option String)
  | done
deriving DecidableEq

/-- One SSE frame of the text-completion streaming response; `delta` carries
the optional logprobs fragment as well (lines 447-467). -/
inductive CompletionFrame (α : Type) where
  | delta (index : Nat) (text : String) (logprobs : Option (LogProbs α))
      (finish_reason : Option String)
  | done
deriving DecidableEq

/-- The two mutable per-request arrays `previous_texts` and
`previous_num_tokens` (lines 285-286 and 470-471). -/
structure StreamState where
  previous_texts : List String
  previous_num_tokens : List Nat
deriving DecidableEq

/-- Loop body for one chat snapshot output (lines 289-305): compute the delta
text by slicing the cumulative text from the previously emitted length,
update both bookkeeping arrays, emit the content delta, and — when the
snapshot carries a finish reason — one extra terminal delta with empty text
and that reason. -/
def chat_step {α : Type} (st : StreamState) (output : CompletionOutput α) :
    StreamState × List ChatFrame :=
  let i := output.index
  let delta_text := output.text.drop (st.previous_texts.getD i "").length
  let st' : StreamState :=
    { previous_texts := st.previous_texts.set i output.text
      previous_num_tokens := st.previous_num_tokens.set i output.token_ids.length }
  let frames :=
    match output.finish_reason with
    | none => [ChatFrame.delta i delta_text none]
    | some reason => [ChatFrame.delta i delta_text none, ChatFrame.delta i "" (some reason)]
  (st', frames)

/-- The inner `for output in res.outputs` loop of the chat generator. -/
def chat_outputs_frames {α : Type} (st : StreamState) :
    List (CompletionOutput α) → StreamState × List ChatFrame
  | [] => (st, [])
  | o :: os =>
    let p := chat_step st o
    let q := chat_outputs_frames p.1 os
    (q.1, p.2 ++ q.2)

/-- The `async for res in result_generator` loop of the chat generator
(lines 287-306).  NOTE: in the source the `yield "data: [DONE]\n\n"` on
line 306 is indented inside the `async for` loop, so a `done` frame is
emitted after every snapshot, not only after the last one.  The embedding
reproduces this faithfully. -/
def chat_body {α : Type} (st : StreamState) : List (RequestOutput α) → List ChatFrame
  | [] => []
  | res :: rest =>
    let p := chat_outputs_frames st res.outputs
    p.2 ++ [ChatFrame.done] ++ chat_body p.1 rest

/-- Embedding of `completion_stream_generator` of the chat route (lines 271-306): first one
role-announcement frame per index `0..n-1`, then the snapshot loop starting
from empty accumulation state. -/
def chat_stream_frames {α : Type} (n : Nat) (snapshots : List (RequestOutput α)) :
    List ChatFrame :=
  ((List.range n).map ChatFrame.role_delta) ++
    chat_body ⟨List.replicate n "", List.replicate n 0⟩ snapshots

/-- Loop body for one completions snapshot output (lines 474-501): delta text
as in the chat path; when logprobs were requested, the fragment is
`create_logprobs` over the token-id / logprob arrays sliced from
`previous_num_tokens[i]` onward with initial text offset
`len(previous_texts[i])`; the terminal delta carries an empty `LogProbs()`
when logprobs were requested. -/
def completion_step {α : Type} (tok : Nat → String) (logprobs_requested : Bool)
    (st : StreamState) (output : CompletionOutput α) :
    StreamState × List (CompletionFrame α) :=
  let i := output.index
  let delta_text := output.text.drop (st.previous_texts.getD i "").length
  let logprobs :=
    if logprobs_requested then
      some (create_logprobs tok
        (output.token_ids.drop (st.previous_num_tokens.getD i 0))
        (output.logprobs.drop (st.previous_num_tokens.getD i 0))
        (st.previous_texts.getD i "").length)
    else none
  let st' : StreamState :=
    { previous_texts := st.previous_texts.set i output.text
      previous_num_tokens := st.previous_num_tokens.set i output.token_ids.length }
  let frames :=
    match output.finish_reason with
    | none => [CompletionFrame.delta i delta_text logprobs none]
    | some reason =>
      [CompletionFrame.delta i delta_text logprobs none,
       CompletionFrame.delta i ""
         (if logprobs_requested then some LogProbs.empty else none) (some reason)]
  (st', frames)

/-- The inner `for output in res.outputs` loop of the completions generator. -/
def completion_outputs_frames {α : Type} (tok : Nat → String) (logprobs_requested : Bool)
    (st : StreamState) :
    List (CompletionOutput α) → StreamState × List (CompletionFrame α)
  | [] => (st, [])
  | o :: os =>
    let p := completion_step tok logprobs_requested st o
    let q := completion_outputs_frames tok logprobs_requested p.1 os
    (q.1, p.2 ++ q.2)

/-- The `async for res in result_generator` loop of the completions generator
(lines 472-502).  As in the chat path, the `done` frame on line 502 is
emitted inside the snapshot loop (after every snapshot). -/
def completion_body {α : Type} (tok : Nat → String) (logprobs_requested : Bool)
    (st : StreamState) : List (RequestOutput α) → List (CompletionFrame α)
  | [] => []
  | res :: rest =>
    let p := completion_outputs_frames tok logprobs_requested st res.outputs
    p.2 ++ [CompletionFrame.done] ++ completion_body tok logprobs_requested p.1 rest

/-- Embedding of `completion_stream_generator` of the completions route (lines 469-502). -/
def completion_stream_frames {α : Type} (tok : Nat → String) (logprobs_requested : Bool)
    (n : Nat) (snapshots : List (RequestOutput α)) : List (CompletionFrame α) :=
  completion_body tok logprobs_requested ⟨List.replicate n "", List.replicate n 0⟩ snapshots

/-! ## Validation helpers -/

/-- An error JSON response built by `create_error_response` (lines 78-82):
HTTP status code plus message; its body always has
`type = "invalid_request_error"`. -/
structure ErrorResponse where
  status : Nat
  message : String
deriving DecidableEq

/-- Embedding of `create_error_response(status_code, message)` (lines 78-82). -/
def create_error_response (status_code : Nat) (message : String) : ErrorResponse :=
  ⟨status_code, message⟩

/-- Embedding of `check_model` (lines 89-96): the request's model name must equal the
single served model, otherwise a 404 error response. -/
def check_model (served_model : String) (model : String) : Option ErrorResponse :=
  if model = served_model then none
  else some (create_error_response 404 ("The model `" ++ model ++ "` does not exist."))

/-- The context-window-bearing attributes of `model_config.hf_config`
probed by `check_length`; `none` models an absent attribute. -/
structure HFConfig where
  max_sequence_length : Option Nat
  seq_length : Option Nat
  max_position_embeddings : Option Nat
deriving DecidableEq

/-- The `hasattr` chain of `check_length` (lines 136-145), including the
duplicated (dead) second `seq_length` probe, defaulting to 2048. -/
def context_len_of (hf : HFConfig) : Nat :=
  match hf.max_sequence_length with
  | some v => v
  | none =>
    match hf.seq_length with
    | some v => v
    | none =>
      match hf.max_position_embeddings with
      | some v => v
      | none =>
        match hf.seq_length with
        | some v => v
        | none => 2048

/-- Embedding of `check_length` (lines 135-160): tokenize the prompt and reject with a 400
error when `token_num + max_tokens > context_len`, reporting the limit, the
requested total, and both addends.  `tokenize` models
`self.tokenizer(prompt).input_ids`. -/
def check_length (tokenize : String → List Nat) (hf : HFConfig) (max_tokens : Nat)
    (prompt : String) : Option ErrorResponse :=
  let context_len := context_len_of hf
  let input_ids := tokenize prompt
  let token_num := input_ids.length
  if context_len < token_num + max_tokens then
    some (create_error_response 400
      ("This model\x27s maximum context length is " ++ toString context_len ++
       " tokens. However, you requested " ++ toString (max_tokens + token_num) ++
       " tokens (" ++ toString token_num ++ " in the messages, " ++
       toString max_tokens ++ " in the completion). " ++
       "Please reduce the length of the messages or completion."))
  else none

/-! ## Prompt assembly -/

/-- The slice of the fastchat `Conversation` object that `get_gen_prompt`
manipulates: the system text, the (user, assistant) role names, and the
turn list.  Template metadata (separators, stop tokens) lives behind the
external `get_prompt` renderer. -/
structure Conversation where
  system : String
  roles : String × String
  messages : List (String × Option String)
deriving DecidableEq

/-- Model of `conv.append_message(role, content)`: append one turn. -/
def Conversation.append_message (conv : Conversation) (role : String)
    (content : Option String) : Conversation :=
  { conv with messages := conv.messages ++ [(role, content)] }

/-- One entry of `request.messages` in the chat route. -/
structure ChatMessage where
  role : String
  content : String
deriving DecidableEq

/-- The message-replay loop of `get_gen_prompt` (lines 117-126): `system`
replaces the system text, `user`/`assistant` append a turn, any other role
raises `ValueError(f"Unknown role: {msg_role}")`, modelled as `Except.error`. -/
def apply_messages (conv : Conversation) : List ChatMessage → Except String Conversation
  | [] => .ok conv
  | m :: ms =>
    if m.role = "system" then apply_messages { conv with system := m.content } ms
    else if m.role = "user" then
      apply_messages (conv.append_message conv.roles.1 (some m.content)) ms
    else if m.role = "assistant" then
      apply_messages (conv.append_message conv.roles.2 (some m.content)) ms
    else .error ("Unknown role: " ++ m.role)

/-- Embedding of `get_gen_prompt` (lines 99-132): a raw string is used verbatim; a message
list is replayed into the conversation, a blank assistant turn is appended,
and the external template renderer `get_prompt` produces the prompt. -/
def get_gen_prompt (get_prompt : Conversation → String) (conv : Conversation) :
    Sum String (List ChatMessage) → Except String String
  | .inl s => .ok s
  | .inr msgs =>
    match apply_messages conv msgs with
    | .error e => .error e
    | .ok conv' => .ok (get_prompt (conv'.append_message conv'.roles.2 none))

/-! ## Engine interaction and draining -/

/-- A call made to the engine: `engine.generate(prompt, params, request_id)`
or `engine.abort(request_id)`. -/
inductive EngineCall where
  | generate (request_id : String)
  | abort (request_id : String)
deriving DecidableEq

/-- Result of the non-streaming drain loop: either the client disconnected
(with the number of snapshots pulled from the generator), or the loop ran
to completion holding the last snapshot (`none` when the stream was empty,
which makes the subsequent `assert final_res is not None` fail). -/
inductive DrainResult (α : Type) where
  | disconnected (consumed : Nat)
  | completed (final_res : Option (RequestOutput α)) (consumed : Nat)
deriving DecidableEq

/-- The `async for res in result_generator` drain loop of the non-streaming
paths (lines 318-325 and 514-521): pull a snapshot, check
`raw_request.is_disconnected()`, and either stop or remember the snapshot.
`is_disconnected k` models the poll made right after pulling snapshot `k`. -/
def drain_loop {α : Type} (is_disconnected : Nat → Bool)
    (final_res : Option (RequestOutput α)) (k : Nat) :
    List (RequestOutput α) → DrainResult α
  | [] => .completed final_res k
  | res :: rest =>
    if is_disconnected k then .disconnected (k + 1)
    else drain_loop is_disconnected (some res) (k + 1) rest

/-! ## Responses and handler outcomes -/

/-- The `UsageInfo` block of the final response (lines 339-343 / 540-544). -/
structure UsageInfo where
  prompt_tokens : Nat
  completion_tokens : Nat
  total_tokens : Nat
deriving DecidableEq

/-- Model of `ChatCompletionResponseChoice` (lines 329-333): the message content is
always role `assistant` with the output's full text. -/
structure ChatCompletionResponseChoice where
  index : Nat
  content : String
  finish_reason : Option String
deriving DecidableEq

/-- Model of `ChatCompletionResponse` restricted to the fields the handler computes. -/
structure ChatCompletionResponse where
  choices : List ChatCompletionResponseChoice
  usage : UsageInfo
deriving DecidableEq

/-- Model of `CompletionResponseChoice` (lines 529-534). -/
structure CompletionResponseChoice (α : Type) where
  index : Nat
  text : String
  logprobs : Option (LogProbs α)
  finish_reason : Option String
deriving DecidableEq

/-- Model of `CompletionResponse` restricted to the fields the handler computes. -/
structure CompletionResponse (α : Type) where
  choices : List (CompletionResponseChoice α)
  usage : UsageInfo
deriving DecidableEq

/-- One frame of a fake (single-shot) SSE stream: a data frame carrying a
rendered payload, or the `"data: [DONE]\n\n"` terminator. -/
inductive SSEFrame (β : Type) where
  | data (payload : β)
  | done
deriving DecidableEq

/-- Embedding of `fake_stream_generator` (lines 357-359 / 558-560): exactly one data event
holding the full aggregate response, then the terminator. -/
def fake_stream_generator {β : Type} (response : β) : List (SSEFrame β) :=
  [SSEFrame.data response, SSEFrame.done]

/-! ## Requests -/

/-- Model of `ChatCompletionRequest` restricted to the fields the handler's control
flow reads.  The pure sampling fields (temperature, penalties, ...) are only
forwarded to the engine-side `SamplingParams` constructor, whose range
validation is external; it is modelled by the `sampling_check` parameter of
the handler.  `logit_bias` is only tested for presence. -/
structure ChatCompletionRequest where
  model : String
  messages : Sum String (List ChatMessage)
  n : Nat
  max_tokens : Nat
  stream : Bool
  logit_bias : Option (List (Nat × Int))
deriving DecidableEq

/-- Model of `CompletionRequest` restricted to the fields the handler's control flow
reads (same conventions as `ChatCompletionRequest`). -/
structure CompletionRequest where
  model : String
  prompt : Sum String (List String)
  n : Nat
  best_of : Option Nat
  echo : Bool
  suffix : Option String
  logit_bias : Option (List (Nat × Int))
  stream : Bool
  max_tokens : Nat
  logprobs : Option Nat
  use_beam_search : Bool
deriving DecidableEq

/-! ## Handler outcomes -/

/-- What the chat route handler returns.  `error_response` is a JSON error
built by `create_error_response`; `raised` is an exception escaping the
handler uncaught (a `ValueError` from `get_gen_prompt`, or the
`assert final_res is not None` failure); `streaming` is a
`StreamingResponse` over the true stream generator together with the
attached FastAPI background tasks (which the framework runs after the
response body is fully sent); `fake_streaming` is the single-shot stream;
`response` is the plain JSON response. -/
inductive ChatOutcome where
  | error_response (resp : ErrorResponse)
  | raised (message : String)
  | streaming (frames : List ChatFrame) (background : List EngineCall)
  | fake_streaming (frames : List (SSEFrame ChatCompletionResponse))
  | response (resp : ChatCompletionResponse)
deriving DecidableEq

/-- What the completions route handler returns (same reading as
`ChatOutcome`). -/
inductive CompletionOutcome (α : Type) where
  | error_response (resp : ErrorResponse)
  | raised (message : String)
  | streaming (frames : List (CompletionFrame α)) (background : List EngineCall)
  | fake_streaming (frames : List (SSEFrame (CompletionResponse α)))
  | response (resp : CompletionResponse α)
deriving DecidableEq

/-- Whether a `ChatOutcome` is a JSON error response (vs an uncaught
exception or a success shape). -/
def ChatOutcome.is_error_response : ChatOutcome → Bool
  | .error_response _ => true
  | _ => false

/-- Whether a `CompletionOutcome` is the true-streaming shape. -/
def CompletionOutcome.is_streaming {α : Type} : CompletionOutcome α → Bool
  | .streaming _ _ => true
  | _ => false

/-- Build the chat aggregate response from the final snapshot
(lines 327-350). -/
def chat_response_of {α : Type} (final_res : RequestOutput α) : ChatCompletionResponse :=
  let choices := final_res.outputs.map (fun o =>
    ChatCompletionResponseChoice.mk o.index o.text o.finish_reason)
  let num_prompt_tokens := final_res.prompt_token_ids.length
  let num_generated_tokens := (final_res.outputs.map (fun o => o.token_ids.length)).sum
  { choices := choices
    usage :=
      { prompt_tokens := num_prompt_tokens
        completion_tokens := num_generated_tokens
        total_tokens := num_prompt_tokens + num_generated_tokens } }

/-- Build the completions aggregate response from the final snapshot
(lines 523-551); full logprobs are rendered from offset 0 when requested. -/
def completion_response_of {α : Type} (tok : Nat → String) (logprobs_requested : Bool)
    (final_res : RequestOutput α) : CompletionResponse α :=
  let choices := final_res.outputs.map (fun o =>
    CompletionResponseChoice.mk o.index o.text
      (if logprobs_requested then some (create_logprobs tok o.token_ids o.logprobs 0)
       else none)
      o.finish_reason)
  let num_prompt_tokens := final_res.prompt_token_ids.length
  let num_generated_tokens := (final_res.outputs.map (fun o => o.token_ids.length)).sum
  { choices := choices
    usage :=
      { prompt_tokens := num_prompt_tokens
        completion_tokens := num_generated_tokens
        total_tokens := num_prompt_tokens + num_generated_tokens } }

/-! ## Route handlers -/

/-- Embedding of `create_chat_completion` (lines 198-364), as a function of: the served
model name, the external template renderer and base conversation, the
tokenizer, the model config, the outcome of the engine-side `SamplingParams`
validation (`some msg` models a `ValueError`), the generated `request_id`,
the engine's snapshot stream, and the disconnect oracle.  Returns the
outcome together with the log of engine calls the handler itself awaited
(`generate` once submitted; `abort` on mid-drain disconnect).  For the
streaming branch the abort lives in the outcome's background-task list,
which FastAPI runs only after the stream ends. -/
def create_chat_completion {α : Type} (served_model : String)
    (get_prompt : Conversation → String) (conv : Conversation)
    (tokenize : String → List Nat) (hf : HFConfig)
    (sampling_check : Option String) (request_id : String)
    (snapshots : List (RequestOutput α)) (is_disconnected : Nat → Bool)
    (req : ChatCompletionRequest) : ChatOutcome × List EngineCall :=
  match check_model served_model req.model with
  | some err => (.error_response err, [])
  | none =>
    if req.logit_bias.isSome then
      (.error_response (create_error_response 400 "logit_bias is not currently supported"),
       [])
    else
      match get_gen_prompt get_prompt conv req.messages with
      | .error e => (.raised e, [])
      | .ok prompt =>
        match check_length tokenize hf req.max_tokens prompt with
        | some err => (.error_response err, [])
        | none =>
          match sampling_check with
          | some e => (.error_response (create_error_response 400 e), [])
          | none =>
            if req.stream then
              (.streaming (chat_stream_frames req.n snapshots)
                 [EngineCall.abort request_id],
               [EngineCall.generate request_id])
            else
              match drain_loop is_disconnected none 0 snapshots with
              | .disconnected _ =>
                (.error_response (create_error_response 400 "Client disconnected"),
                 [EngineCall.generate request_id, EngineCall.abort request_id])
              | .completed none _ =>
                (.raised "AssertionError: final_res is not None",
                 [EngineCall.generate request_id])
              | .completed (some final_res) _ =>
                let response := chat_response_of final_res
                if req.stream then
                  (.fake_streaming (fake_stream_generator response),
                   [EngineCall.generate request_id])
                else
                  (.response response, [EngineCall.generate request_id])

/-- The prompt-extraction block of `create_completion` (lines 406-416):
a list prompt must have exactly one element. -/
def prompt_of : Sum String (List String) → Except ErrorResponse String
  | .inl s => .ok s
  | .inr l =>
    if l.length = 0 then
      .error (create_error_response 400 "please provide at least one prompt")
    else if 1 < l.length then
      .error (create_error_response 400
        "multiple prompts in a batch is not currently supported")
    else .ok (l.getD 0 "")

/-- The streaming decision of `create_completion` (lines 438-442): stream
only when the client asked to, `best_of` is unset or equals `n`, and beam
search is off. -/
def completion_will_stream (req : CompletionRequest) : Bool :=
  req.stream && (req.best_of.isNone || req.best_of == some req.n) && !req.use_beam_search

/-- Embedding of `create_completion` (lines 367-565), with the same modelling conventions
as `create_chat_completion`.  Note the true-streaming branch is gated on the
computed `stream` decision while the fake-stream branch after draining is
gated on the raw `request.stream` flag. -/
def create_completion {α : Type} (served_model : String) (tok : Nat → String)
    (sampling_check : Option String) (request_id : String)
    (snapshots : List (RequestOutput α)) (is_disconnected : Nat → Bool)
    (req : CompletionRequest) : CompletionOutcome α × List EngineCall :=
  match check_model served_model req.model with
  | some err => (.error_response err, [])
  | none =>
    if req.echo then
      (.error_response (create_error_response 400 "echo is not currently supported"), [])
    else if req.suffix.isSome then
      (.error_response (create_error_response 400 "suffix is not currently supported"), [])
    else if req.logit_bias.isSome then
      (.error_response (create_error_response 400 "logit_bias is not currently supported"),
       [])
    else
      match prompt_of req.prompt with
      | .error err => (.error_response err, [])
      | .ok _prompt =>
        match sampling_check with
        | some e => (.error_response (create_error_response 400 e), [])
        | none =>
          if completion_will_stream req then
            (.streaming
               (completion_stream_frames tok req.logprobs.isSome req.n snapshots)
               [EngineCall.abort request_id],
             [EngineCall.generate request_id])
          else
            match drain_loop is_disconnected none 0 snapshots with
            | .disconnected _ =>
              (.error_response (create_error_response 400 "Client disconnected"),
               [EngineCall.generate request_id, EngineCall.abort request_id])
            | .completed none _ =>
              (.raised "AssertionError: final_res is not None",
               [EngineCall.generate request_id])
            | .completed (some final_res) _ =>
              let response := completion_response_of tok req.logprobs.isSome final_res
              if req.stream then
                (.fake_streaming (fake_stream_generator response),
                 [EngineCall.generate request_id])
              else
                (.response response, [EngineCall.generate request_id])

/-! ## Observation functions used to state the verified properties -/

/-- All snapshot outputs of a stream, flattened in processing order. -/
def flat_outputs {α : Type} (snapshots : List (RequestOutput α)) :
    List (CompletionOutput α) :=
  snapshots.flatMap (fun res => res.outputs)

/-- The cumulative texts delivered for output index `i`, in order. -/
def texts_for {α : Type} (i : Nat) (os : List (CompletionOutput α)) : List String :=
  (os.filter (fun o => o.index == i)).map (fun o => o.text)

/-- The `(index, delta text)` events the generators emit for a flat output
list, starting from the given `previous_texts` array: one content event per
output (its cumulative text sliced from the previously emitted length) and
one empty-text event per finished output. -/
def text_delta_events {α : Type} (previous_texts : List String) :
    List (CompletionOutput α) → List (Nat × String)
  | [] => []
  | o :: os =>
    (o.index, o.text.drop (previous_texts.getD o.index "").length) ::
      ((match o.finish_reason with
        | some _ => [(o.index, "")]
        | none => []) ++
       text_delta_events (previous_texts.set o.index o.text) os)

/-- The delta-text fragments among a list of events that belong to index `i`. -/
def delta_texts_for (i : Nat) (events : List (Nat × String)) : List String :=
  (events.filter (fun e => e.1 == i)).map (fun e => e.2)

/-- Concatenation of a list of fragments. -/
def concat_fragments : List String → String
  | [] => ""
  | s :: l => s ++ concat_fragments l

/-- Project chat frames to their `(index, delta text)` events; role frames
and terminator frames carry no delta text. -/
def chat_frame_events : List ChatFrame → List (Nat × String)
  | [] => []
  | ChatFrame.role_delta _ :: fs => chat_frame_events fs
  | ChatFrame.delta i t _ :: fs => (i, t) :: chat_frame_events fs
  | ChatFrame.done :: fs => chat_frame_events fs

/-- Project completion frames to their `(index, delta text)` events. -/
def completion_frame_events {α : Type} : List (CompletionFrame α) → List (Nat × String)
  | [] => []
  | CompletionFrame.delta i t _ _ :: fs => (i, t) :: completion_frame_events fs
  | CompletionFrame.done :: fs => completion_frame_events fs

/-- Whether a chat frame is the role-announcement frame (for any index). -/
def ChatFrame.is_role : ChatFrame → Bool
  | .role_delta _ => true
  | _ => false

/-- Whether a chat frame is a finish-reason delta for index `i`. -/
def ChatFrame.is_finish_for (i : Nat) : ChatFrame → Bool
  | .delta j _ (some _) => j == i
  | _ => false

/-- Number of stream-terminator frames in a chat stream. -/
def chat_done_count (frames : List ChatFrame) : Nat :=
  (frames.filter (fun f => f == ChatFrame.done)).length

/-- Number of stream-terminator frames in a completions stream. -/
def completion_done_count {α : Type} [DecidableEq α] (frames : List (CompletionFrame α)) :
    Nat :=
  (frames.filter (fun f => f == CompletionFrame.done)).length

/-- The outputs of a stream that carry a finish reason and belong to
index `i`, in processing order. -/
def finished_outputs_for {α : Type} (i : Nat) (snapshots : List (RequestOutput α)) :
    List (CompletionOutput α) :=
  (flat_outputs snapshots).filter (fun o => o.index == i && o.finish_reason.isSome)

/-- The text offsets `create_logprobs` produces, in closed form: the first
offset is the starting value, and each next offset adds the char length of
the token rendered at the previous position. -/
def offsets_from (tok : Nat → String) : Nat → List Nat → List Nat
  | _, [] => []
  | start, token_id :: rest => start :: offsets_from tok (start + (tok token_id).length) rest

/-- Number of abort calls for a given request id in a call log. -/
def abort_count (request_id : String) (calls : List EngineCall) : Nat :=
  (calls.filter (fun c => c == EngineCall.abort request_id)).length

/-- The prefix relation on strings, read off their character lists: the spec's
"monotonically growing cumulative text". -/
def text_prefix_rel (a b : String) : Prop := a.data <+: b.data

/-- The accumulated `previous_texts` array after processing a flat output
list: each output overwrites its slot with its cumulative text. -/
def set_texts {α : Type} (previous_texts : List String) :
    List (CompletionOutput α) → List String
  | [] => previous_texts
  | o :: os => set_texts (previous_texts.set o.index o.text) os

/-! ## Basic string and list lemmas -/

theorem string_ext {a b : String} (h : a.data = b.data) : a = b := by
  cases a; cases b; exact congrArg String.mk h

theorem string_length_data (a : String) : a.length = a.data.length := rfl

theorem string_empty_append (s : String) : "" ++ s = s :=
  string_ext (by simp [String.data_append])

theorem string_append_assoc (a b c : String) : a ++ b ++ c = a ++ (b ++ c) :=
  string_ext (by simp [String.data_append])

theorem prefix_drop_append {a b : String} (h : text_prefix_rel a b) :
    a ++ b.drop a.length = b := by
  apply string_ext
  rw [String.data_append, String.data_drop, string_length_data]
  obtain ⟨r, hr⟩ := h
  rw [← hr]
  simp

theorem getD_set_ne {β : Type} (l : List β) {i j : Nat} (t d : β) (h : j ≠ i) :
    (l.set j t).getD i d = l.getD i d := by
  simp [List.getD, List.getElem?_set_ne h]

theorem getD_set_self {β : Type} (l : List β) {i : Nat} (t d : β) (h : i < l.length) :
    (l.set i t).getD i d = t := by
  simp [List.getD, List.getElem?_set_eq_of_lt _ h]

/-! ## Projecting the stream generators to their delta events -/

theorem chat_frame_events_append (a b : List ChatFrame) :
    chat_frame_events (a ++ b) = chat_frame_events a ++ chat_frame_events b := by
  induction a with
  | nil => rfl
  | cons f fs ih => cases f <;> simp [chat_frame_events, ih]

theorem completion_frame_events_append {α : Type} (a b : List (CompletionFrame α)) :
    completion_frame_events (a ++ b)
      = completion_frame_events a ++ completion_frame_events b := by
  induction a with
  | nil => rfl
  | cons f fs ih => cases f <;> simp [completion_frame_events, ih]

theorem chat_frame_events_role_map (l : List Nat) :
    chat_frame_events (l.map ChatFrame.role_delta) = [] := by
  induction l with
  | nil => rfl
  | cons x xs ih => simp [chat_frame_events, ih]

theorem text_delta_events_append {α : Type} (os1 os2 : List (CompletionOutput α)) :
    ∀ previous_texts, text_delta_events previous_texts (os1 ++ os2)
      = text_delta_events previous_texts os1 ++
        text_delta_events (set_texts previous_texts os1) os2 := by
  induction os1 with
  | nil => intro prevs; rfl
  | cons o os ih =>
    intro prevs
    cases h : o.finish_reason <;> simp [text_delta_events, set_texts, h, ih]

theorem chat_outputs_frames_state {α : Type} (os : List (CompletionOutput α)) :
    ∀ st, (chat_outputs_frames st os).1.previous_texts
      = set_texts st.previous_texts os := by
  induction os with
  | nil => intro st; rfl
  | cons o os ih => intro st; simp [chat_outputs_frames, chat_step, set_texts, ih]

theorem chat_outputs_frames_events {α : Type} (os : List (CompletionOutput α)) :
    ∀ st, chat_frame_events (chat_outputs_frames st os).2
      = text_delta_events st.previous_texts os := by
  induction os with
  | nil => intro st; rfl
  | cons o os ih =>
    intro st
    cases h : o.finish_reason <;>
      simp [chat_outputs_frames, chat_step, h, text_delta_events,
        chat_frame_events_append, chat_frame_events, ih]

theorem chat_body_events {α : Type} (ss : List (RequestOutput α)) :
    ∀ st, chat_frame_events (chat_body st ss)
      = text_delta_events st.previous_texts (flat_outputs ss) := by
  induction ss with
  | nil => intro st; rfl
  | cons res rest ih =>
    intro st
    rw [chat_body, chat_frame_events_append, chat_frame_events_append]
    rw [chat_outputs_frames_events, ih, chat_outputs_frames_state]
    simp [flat_outputs, chat_frame_events, text_delta_events_append]

theorem chat_stream_frames_events {α : Type} (n : Nat) (ss : List (RequestOutput α)) :
    chat_frame_events (chat_stream_frames n ss)
      = text_delta_events (List.replicate n "") (flat_outputs ss) := by
  rw [chat_stream_frames, chat_frame_events_append, chat_frame_events_role_map,
    chat_body_events]
  rfl

theorem completion_outputs_frames_state {α : Type} (tok : Nat → String)
    (lp : Bool) (os : List (CompletionOutput α)) :
    ∀ st, (completion_outputs_frames tok lp st os).1.previous_texts
      = set_texts st.previous_texts os := by
  induction os with
  | nil => intro st; rfl
  | cons o os ih =>
    intro st; simp [completion_outputs_frames, completion_step, set_texts, ih]

theorem completion_outputs_frames_events {α : Type} (tok : Nat → String)
    (lp : Bool) (os : List (CompletionOutput α)) :
    ∀ st, completion_frame_events (completion_outputs_frames tok lp st os).2
      = text_delta_events st.previous_texts os := by
  induction os with
  | nil => intro st; rfl
  | cons o os ih =>
    intro st
    cases h : o.finish_reason <;>
      simp [completion_outputs_frames, completion_step, h, text_delta_events,
        completion_frame_events_append, completion_frame_events, ih]

theorem completion_body_events {α : Type} (tok : Nat → String) (lp : Bool)
    (ss : List (RequestOutput α)) :
    ∀ st, completion_frame_events (completion_body tok lp st ss)
      = text_delta_events st.previous_texts (flat_outputs ss) := by
  induction ss with
  | nil => intro st; rfl
  | cons res rest ih =>
    intro st
    rw [completion_body, completion_frame_events_append, completion_frame_events_append]
    rw [completion_outputs_frames_events, ih, completion_outputs_frames_state]
    simp [flat_outputs, completion_frame_events, text_delta_events_append]

theorem completion_stream_frames_events {α : Type} (tok : Nat → String) (lp : Bool)
    (n : Nat) (ss : List (RequestOutput α)) :
    completion_frame_events (completion_stream_frames tok lp n ss)
      = text_delta_events (List.replicate n "") (flat_outputs ss) := by
  rw [completion_stream_frames, completion_body_events]

/-! ## Exactly-once delta delivery -/

/-- Core accumulation lemma: starting from any `previous_texts` array, if the
cumulative texts delivered for index `i` each extend the previous one
(starting from the array's current slot), then the slot text followed by the
concatenation of all delta fragments emitted for `i` reconstructs the final
cumulative text. -/
theorem delta_concat {α : Type} (i : Nat) (os : List (CompletionOutput α)) :
    ∀ previous_texts : List String, i < previous_texts.length →
      List.Chain' text_prefix_rel (previous_texts.getD i "" :: texts_for i os) →
      previous_texts.getD i "" ++
          concat_fragments (delta_texts_for i (text_delta_events previous_texts os))
        = (texts_for i os).getLastD (previous_texts.getD i "") := by
  induction os with
  | nil =>
    intro prevs _ _
    simp [texts_for, text_delta_events, delta_texts_for, concat_fragments]
  | cons o os ih =>
    intro prevs hi hchain
    by_cases hoi : o.index = i
    · have htexts : texts_for i (o :: os) = o.text :: texts_for i os := by
        simp [texts_for, hoi]
      rw [htexts] at hchain
      have hrel : text_prefix_rel (prevs.getD i "") o.text :=
        (List.chain'_cons.mp hchain).1
      have hchain' : List.Chain' text_prefix_rel (o.text :: texts_for i os) :=
        (List.chain'_cons.mp hchain).2
      have hlen : i < (prevs.set o.index o.text).length := by
        simpa using hi
      have hslot : (prevs.set o.index o.text).getD i "" = o.text := by
        rw [hoi]; exact getD_set_self _ _ _ hi
      have hih := ih (prevs.set o.index o.text) hlen (by rw [hslot]; exact hchain')
      rw [hslot] at hih
      have hdtf : delta_texts_for i (text_delta_events prevs (o :: os))
          = o.text.drop (prevs.getD i "").length ::
            delta_texts_for i (text_delta_events (prevs.set o.index o.text) os)
          ∨ delta_texts_for i (text_delta_events prevs (o :: os))
          = o.text.drop (prevs.getD i "").length :: "" ::
            delta_texts_for i (text_delta_events (prevs.set o.index o.text) os) := by
        cases h : o.finish_reason with
        | none => left; simp [text_delta_events, delta_texts_for, h, hoi]
        | some r => right; simp [text_delta_events, delta_texts_for, h, hoi]
      have hfinal : prevs.getD i "" ++
          (o.text.drop (prevs.getD i "").length ++
            concat_fragments
              (delta_texts_for i (text_delta_events (prevs.set o.index o.text) os)))
          = (texts_for i os).getLastD o.text := by
        rw [← string_append_assoc, prefix_drop_append hrel, hih]
      rcases hdtf with h | h
      · rw [h, htexts, List.getLastD_cons]
        simpa [concat_fragments] using hfinal
      · rw [h, htexts, List.getLastD_cons]
        simp only [concat_fragments]
        rw [string_empty_append]
        exact hfinal
    · have htexts : texts_for i (o :: os) = texts_for i os := by
        simp [texts_for, hoi]
      have hslot : (prevs.set o.index o.text).getD i "" = prevs.getD i "" :=
        getD_set_ne _ _ _ hoi
      have hlen : i < (prevs.set o.index o.text).length := by simpa using hi
      have hih := ih (prevs.set o.index o.text) hlen
        (by rw [hslot]; rw [htexts] at hchain; exact hchain)
      rw [hslot] at hih
      have hne : (o.index == i) = false := by
        simp [hoi]
      have hdtf : delta_texts_for i (text_delta_events prevs (o :: os))
          = delta_texts_for i (text_delta_events (prevs.set o.index o.text) os) := by
        cases h : o.finish_reason with
        | none => simp [text_delta_events, delta_texts_for, h, hne]
        | some r => simp [text_delta_events, delta_texts_for, h, hne]
      rw [hdtf, htexts, hih]

instance (a b : String) : Decidable (text_prefix_rel a b) := by
  unfold text_prefix_rel
  infer_instance

/-- A small two-snapshot engine stream used to evaluate the generators on
concrete input: one output index whose cumulative text grows "a" → "ab",
finishing on the second snapshot. -/
def two_snapshots : List (RequestOutput Unit) :=
  [⟨[9], [⟨0, "a", [1], [], none⟩]⟩,
   ⟨[9], [⟨0, "ab", [1, 2], [], some "stop"⟩]⟩]

/-! ## Claim theorems -/

/-- C1: evaluating both stream generators on a concrete two-snapshot stream
shows that the `[DONE]` terminator frame is emitted once per snapshot — twice
here — and that the first terminator precedes the finish-reason delta of the
only output index, because the `yield "data: [DONE]\n\n"` statements
(api_server.py lines 306 and 502) are indented inside the snapshot loop.
The claim that the terminator is emitted exactly once, as the final frame,
after all indices are FINISHED, is therefore violated by the code. -/
theorem c1_terminator_emitted_per_snapshot :
    chat_done_count (chat_stream_frames 1 two_snapshots) = 2
    ∧ chat_stream_frames 1 two_snapshots
      = [ChatFrame.role_delta 0, ChatFrame.delta 0 "a" none, ChatFrame.done,
         ChatFrame.delta 0 "b" none, ChatFrame.delta 0 "" (some "stop"), ChatFrame.done]
    ∧ completion_done_count (completion_stream_frames (fun _ => "") false 1 two_snapshots)
      = 2 := by
  refine ⟨by decide, by decide, by decide⟩

/-- C2: for every stream of snapshots whose cumulative texts for output
index `i` each extend the previous one, the concatenation of the delta text
fragments emitted for `i` — by the chat generator and by the completions
generator alike — equals the final cumulative text for `i`: nothing is
duplicated and nothing is lost. -/
theorem c2_exactly_once_delivery {α : Type} (tok : Nat → String) (lp : Bool)
    (n i : Nat) (ss : List (RequestOutput α)) (hi : i < n)
    (hmono : List.Chain' text_prefix_rel ("" :: texts_for i (flat_outputs ss))) :
    concat_fragments (delta_texts_for i (chat_frame_events (chat_stream_frames n ss)))
      = (texts_for i (flat_outputs ss)).getLastD ""
    ∧ concat_fragments (delta_texts_for i
        (completion_frame_events (completion_stream_frames tok lp n ss)))
      = (texts_for i (flat_outputs ss)).getLastD "" := by
  have hlen : i < (List.replicate n ("" : String)).length := by simpa using hi
  have hslot : (List.replicate n ("" : String)).getD i "" = "" := by
    simp [List.getD, List.getElem?_replicate, hi]
  have h := delta_concat i (flat_outputs ss) (List.replicate n "") hlen
    (by rw [hslot]; exact hmono)
  rw [hslot, string_empty_append] at h
  exact ⟨by rw [chat_stream_frames_events]; exact h,
    by rw [completion_stream_frames_events]; exact h⟩

/-- Witness for C2 on the concrete two-snapshot stream: the fragments "a",
"b", "" concatenate to the final cumulative text "ab" in both generators. -/
theorem c2_exactly_once_delivery_witness :
    concat_fragments
        (delta_texts_for 0 (chat_frame_events (chat_stream_frames 1 two_snapshots)))
      = "ab"
    ∧ concat_fragments (delta_texts_for 0 (completion_frame_events
        (completion_stream_frames (fun _ => "") false 1 two_snapshots)))
      = "ab" := by
  have hl : ("" :: texts_for 0 (flat_outputs two_snapshots)) = ["", "a", "ab"] := by
    decide
  have hchain : List.Chain' text_prefix_rel ("" :: texts_for 0 (flat_outputs two_snapshots)) := by
    rw [hl]
    exact List.chain'_cons.mpr ⟨⟨['a'], rfl⟩,
      List.chain'_cons.mpr ⟨⟨['b'], rfl⟩, List.chain'_singleton _⟩⟩
  have h := c2_exactly_once_delivery (fun _ => "") false 1 0 two_snapshots
    (by decide) hchain
  exact ⟨h.1.trans (by decide), h.2.trans (by decide)⟩

/-! ## Shape of the chat stream: role frames and finish frames -/

theorem chat_step_frames_delta {α : Type} (st : StreamState) (o : CompletionOutput α) :
    ∀ f ∈ (chat_step st o).2, ∃ i t r, f = ChatFrame.delta i t r := by
  intro f h
  cases hfr : o.finish_reason with
  | none =>
    simp [chat_step, hfr] at h
    exact ⟨_, _, _, h⟩
  | some r =>
    simp [chat_step, hfr] at h
    rcases h with h | h
    · exact ⟨_, _, _, h⟩
    · exact ⟨_, _, _, h⟩

theorem chat_outputs_frames_no_role {α : Type} (os : List (CompletionOutput α)) :
    ∀ st f, f ∈ (chat_outputs_frames st os).2 → f.is_role = false := by
  induction os with
  | nil => intro st f h; simp [chat_outputs_frames] at h
  | cons o os ih =>
    intro st f h
    simp only [chat_outputs_frames, List.mem_append] at h
    rcases h with h | h
    · obtain ⟨i, t, r, rfl⟩ := chat_step_frames_delta st o f h
      rfl
    · exact ih _ f h

theorem chat_body_no_role {α : Type} (ss : List (RequestOutput α)) :
    ∀ st f, f ∈ chat_body st ss → f.is_role = false := by
  induction ss with
  | nil => intro st f h; simp [chat_body] at h
  | cons res rest ih =>
    intro st f h
    simp only [chat_body, List.append_assoc, List.mem_append, List.mem_singleton] at h
    rcases h with h | h | h
    · exact chat_outputs_frames_no_role _ _ f h
    · subst h; rfl
    · exact ih _ f h

theorem chat_step_finish_filter {α : Type} (i : Nat) (st : StreamState)
    (o : CompletionOutput α) :
    ((chat_step st o).2).filter (ChatFrame.is_finish_for i)
      = if o.index == i && o.finish_reason.isSome then
          [ChatFrame.delta o.index "" o.finish_reason]
        else [] := by
  cases hfr : o.finish_reason with
  | none => simp [chat_step, hfr, ChatFrame.is_finish_for]
  | some r =>
    by_cases hoi : o.index = i
    · simp [chat_step, hfr, ChatFrame.is_finish_for, hoi]
    · simp [chat_step, hfr, ChatFrame.is_finish_for, hoi]

theorem chat_outputs_frames_finish {α : Type} (i : Nat) (os : List (CompletionOutput α)) :
    ∀ st, ((chat_outputs_frames st os).2).filter (ChatFrame.is_finish_for i)
      = (os.filter (fun o => o.index == i && o.finish_reason.isSome)).map
          (fun o => ChatFrame.delta o.index "" o.finish_reason) := by
  induction os with
  | nil => intro st; rfl
  | cons o os ih =>
    intro st
    simp only [chat_outputs_frames, List.filter_append, List.filter_cons]
    rw [chat_step_finish_filter, ih]
    by_cases h : (o.index == i && o.finish_reason.isSome) = true
    · simp [h]
    · simp [h]

theorem chat_body_finish {α : Type} (i : Nat) (ss : List (RequestOutput α)) :
    ∀ st, (chat_body st ss).filter (ChatFrame.is_finish_for i)
      = ((flat_outputs ss).filter (fun o => o.index == i && o.finish_reason.isSome)).map
          (fun o => ChatFrame.delta o.index "" o.finish_reason) := by
  induction ss with
  | nil => intro st; rfl
  | cons res rest ih =>
    intro st
    simp only [chat_body, List.filter_append, flat_outputs, List.flatMap_cons]
    rw [chat_outputs_frames_finish, ih]
    simp [ChatFrame.is_finish_for, flat_outputs]

theorem role_map_finish_filter (i : Nat) (l : List Nat) :
    ((l.map ChatFrame.role_delta).filter (ChatFrame.is_finish_for i)) = [] := by
  induction l with
  | nil => rfl
  | cons x xs ih => simp [ChatFrame.is_finish_for, ih]

/-- C6: the chat stream is the `n` role-announcement frames for indices
`0 .. n-1` followed by a body that contains no role frame (so each index's
single role frame precedes every content delta); and the finish-reason
frames for index `i` are, in order, exactly one per snapshot output that
belongs to `i` and carries a finish reason, each with empty text and that
finish reason. -/
theorem c6_role_then_content_then_finish {α : Type} (n : Nat)
    (ss : List (RequestOutput α)) :
    chat_stream_frames n ss
      = ((List.range n).map ChatFrame.role_delta)
        ++ chat_body ⟨List.replicate n "", List.replicate n 0⟩ ss
    ∧ (∀ f ∈ chat_body (⟨List.replicate n "", List.replicate n 0⟩ : StreamState) ss,
        f.is_role = false)
    ∧ (∀ i, i < n → (chat_stream_frames n ss).count (ChatFrame.role_delta i) = 1)
    ∧ ∀ i, (chat_stream_frames n ss).filter (ChatFrame.is_finish_for i)
        = (finished_outputs_for i ss).map
            (fun o => ChatFrame.delta o.index "" o.finish_reason) := by
  refine ⟨rfl, fun f h => chat_body_no_role ss _ f h, ?_, ?_⟩
  · intro i hi
    rw [chat_stream_frames, List.count_append]
    have hinj : Function.Injective ChatFrame.role_delta := by
      intro a b h
      simpa using h
    have h1 : ((List.range n).map ChatFrame.role_delta).count (ChatFrame.role_delta i)
        = 1 := by
      rw [List.count_map_of_injective _ _ hinj]
      exact List.count_eq_one_of_mem (List.nodup_range n) (List.mem_range.mpr hi)
    have h2 : (chat_body (⟨List.replicate n "", List.replicate n 0⟩ : StreamState) ss).count
        (ChatFrame.role_delta i) = 0 := by
      refine List.count_eq_zero.mpr (fun hmem => ?_)
      have := chat_body_no_role ss _ _ hmem
      simp [ChatFrame.is_role] at this
    rw [h1, h2]
  · intro i
    rw [chat_stream_frames, List.filter_append, role_map_finish_filter,
      chat_body_finish]
    rfl

/-- Witness for C6 on the concrete two-snapshot stream: index 0 receives
exactly one role frame, and exactly one finish frame (empty text, reason
"stop") matching its single finished snapshot output. -/
theorem c6_role_then_content_then_finish_witness :
    (chat_stream_frames 1 two_snapshots).count (ChatFrame.role_delta 0) = 1
    ∧ (chat_stream_frames 1 two_snapshots).filter (ChatFrame.is_finish_for 0)
      = [ChatFrame.delta 0 "" (some "stop")] := by
  have h := c6_role_then_content_then_finish 1 two_snapshots
  exact ⟨h.2.2.1 0 (by decide), (h.2.2.2 0).trans (by decide)⟩

/-- C4: `check_length` accepts exactly when
`prompt_token_count + max_tokens ≤ context_window`; on rejection it returns
a 400 error whose message reports the limit, the requested total, the prompt
token count and the requested `max_tokens`; and when no context-window
metadata field is present the window defaults to 2048. -/
theorem c4_length_guard (tokenize : String → List Nat) (hf : HFConfig)
    (max_tokens : Nat) (prompt : String) :
    (check_length tokenize hf max_tokens prompt = none
      ↔ (tokenize prompt).length + max_tokens ≤ context_len_of hf)
    ∧ (context_len_of hf < (tokenize prompt).length + max_tokens →
        check_length tokenize hf max_tokens prompt
          = some (create_error_response 400
              ("This model\x27s maximum context length is "
                ++ toString (context_len_of hf) ++
               " tokens. However, you requested "
                ++ toString (max_tokens + (tokenize prompt).length) ++
               " tokens (" ++ toString (tokenize prompt).length ++
               " in the messages, " ++ toString max_tokens ++
               " in the completion). " ++
               "Please reduce the length of the messages or completion.")))
    ∧ (hf.max_sequence_length = none → hf.seq_length = none →
        hf.max_position_embeddings = none → context_len_of hf = 2048) := by
  refine ⟨?_, ?_, ?_⟩
  · simp only [check_length]
    by_cases h : context_len_of hf < (tokenize prompt).length + max_tokens
    · rw [if_pos h]
      refine ⟨fun hc => ?_, fun hle => ?_⟩
      · simp at hc
      · omega
    · rw [if_neg h]
      exact ⟨fun _ => by omega, fun _ => rfl⟩
  · intro h
    simp only [check_length]
    rw [if_pos h]
  · intro h1 h2 h3
    simp [context_len_of, h1, h2, h3]

/-- Witness for C4: with no metadata fields the window is 2048; a 1900-token
prompt with `max_tokens = 200` is rejected reporting 2100 requested tokens,
while an 1800-token prompt with `max_tokens = 200` is accepted. -/
theorem c4_length_guard_witness :
    check_length (fun _ => List.replicate 1900 0) ⟨none, none, none⟩ 200 "x"
      = some (create_error_response 400
          ("This model\x27s maximum context length is 2048 tokens. " ++
           "However, you requested 2100 tokens (1900 in the messages, " ++
           "200 in the completion). " ++
           "Please reduce the length of the messages or completion."))
    ∧ check_length (fun _ => List.replicate 1800 0) ⟨none, none, none⟩ 200 "x" = none := by
  constructor
  · have hlt : context_len_of ⟨none, none, none⟩
        < ((fun _ : String => List.replicate 1900 (0 : Nat)) "x").length + 200 := by
      show (2048 : Nat) < (List.replicate 1900 (0 : Nat)).length + 200
      rw [List.length_replicate]
      omega
    have h := (c4_length_guard (fun _ => List.replicate 1900 0) ⟨none, none, none⟩
      200 "x").2.1 hlt
    rw [h]
    simp only [List.length_replicate]
    norm_num
    rfl
  · refine (c4_length_guard (fun _ => List.replicate 1800 0) ⟨none, none, none⟩
      200 "x").1.mpr ?_
    show (List.replicate 1800 (0 : Nat)).length + 200 ≤ (2048 : Nat)
    rw [List.length_replicate]
    omega

/-! ## Unknown chat roles -/

/-- A chat message whose role is none of the three understood roles. -/
def bad_role (m : ChatMessage) : Prop :=
  m.role ≠ "system" ∧ m.role ≠ "user" ∧ m.role ≠ "assistant"

theorem apply_messages_unknown_role (msgs : List ChatMessage) :
    ∀ conv, (∃ m ∈ msgs, bad_role m) →
      ∃ m ∈ msgs, bad_role m ∧
        apply_messages conv msgs = .error ("Unknown role: " ++ m.role) := by
  induction msgs with
  | nil =>
    intro conv h
    simp at h
  | cons m0 ms ih =>
    intro conv h
    by_cases h0 : bad_role m0
    · obtain ⟨h1, h2, h3⟩ := h0
      refine ⟨m0, List.mem_cons_self m0 ms, ⟨h1, h2, h3⟩, ?_⟩
      simp only [apply_messages]
      rw [if_neg h1, if_neg h2, if_neg h3]
    · have hms : ∃ m ∈ ms, bad_role m := by
        obtain ⟨m, hm, hbad⟩ := h
        rcases List.mem_cons.mp hm with rfl | hm'
        · exact absurd hbad h0
        · exact ⟨m, hm', hbad⟩
      by_cases hs : m0.role = "system"
      · obtain ⟨m, hm, hbad, heq⟩ := ih { conv with system := m0.content } hms
        refine ⟨m, List.mem_cons_of_mem _ hm, hbad, ?_⟩
        simp only [apply_messages]
        rw [if_pos hs]
        exact heq
      · by_cases hu : m0.role = "user"
        · obtain ⟨m, hm, hbad, heq⟩ :=
            ih (conv.append_message conv.roles.1 (some m0.content)) hms
          refine ⟨m, List.mem_cons_of_mem _ hm, hbad, ?_⟩
          simp only [apply_messages]
          rw [if_neg hs, if_pos hu]
          exact heq
        · by_cases ha : m0.role = "assistant"
          · obtain ⟨m, hm, hbad, heq⟩ :=
              ih (conv.append_message conv.roles.2 (some m0.content)) hms
            refine ⟨m, List.mem_cons_of_mem _ hm, hbad, ?_⟩
            simp only [apply_messages]
            rw [if_neg hs, if_neg hu, if_pos ha]
            exact heq
          · exact absurd ⟨hs, hu, ha⟩ h0

/-- C3 counterexample: for a concrete chat request containing a message with
role "narrator", the handler's outcome is the uncaught
`ValueError("Unknown role: narrator")` escaping `get_gen_prompt` — it is not
routed through `create_error_response`, so no 400 `invalid_request_error`
JSON response is produced (FastAPI surfaces an uncaught exception as a
server error) — and the engine receives no call. -/
theorem c3_unknown_role_counterexample :
    (create_chat_completion "m" (fun _ => "") ⟨"", ("USER", "ASSISTANT"), []⟩
        (fun _ => []) ⟨none, none, none⟩ none "cmpl-1"
        ([] : List (RequestOutput Unit)) (fun _ => false)
        ⟨"m", Sum.inr [⟨"narrator", "hi"⟩], 1, 16, false, none⟩).1
      = ChatOutcome.raised "Unknown role: narrator"
    ∧ ((create_chat_completion "m" (fun _ => "") ⟨"", ("USER", "ASSISTANT"), []⟩
        (fun _ => []) ⟨none, none, none⟩ none "cmpl-1"
        ([] : List (RequestOutput Unit)) (fun _ => false)
        ⟨"m", Sum.inr [⟨"narrator", "hi"⟩], 1, 16, false, none⟩).1.is_error_response
      = false)
    ∧ (create_chat_completion "m" (fun _ => "") ⟨"", ("USER", "ASSISTANT"), []⟩
        (fun _ => []) ⟨none, none, none⟩ none "cmpl-1"
        ([] : List (RequestOutput Unit)) (fun _ => false)
        ⟨"m", Sum.inr [⟨"narrator", "hi"⟩], 1, 16, false, none⟩).2
      = [] := by
  refine ⟨by decide, by decide, by decide⟩

/-- C3 (amended): a chat request whose message list contains an unknown role
makes prompt assembly raise `ValueError("Unknown role: <role>")`; the
exception escapes the handler uncaught (no 400 `invalid_request_error`
response is built) and the engine's generate is never invoked. -/
theorem c3_unknown_role_uncaught {α : Type} (served_model : String)
    (get_prompt : Conversation → String) (conv : Conversation)
    (tokenize : String → List Nat) (hf : HFConfig) (sampling_check : Option String)
    (request_id : String) (snapshots : List (RequestOutput α))
    (is_disconnected : Nat → Bool) (req : ChatCompletionRequest)
    (msgs : List ChatMessage)
    (hmodel : req.model = served_model) (hbias : req.logit_bias = none)
    (hmsgs : req.messages = Sum.inr msgs) (hbad : ∃ m ∈ msgs, bad_role m) :
    ∃ m ∈ msgs, bad_role m ∧
      create_chat_completion served_model get_prompt conv tokenize hf sampling_check
          request_id snapshots is_disconnected req
        = (ChatOutcome.raised ("Unknown role: " ++ m.role), []) := by
  obtain ⟨m, hm, hbadm, heq⟩ := apply_messages_unknown_role msgs conv hbad
  refine ⟨m, hm, hbadm, ?_⟩
  have hcm : check_model served_model req.model = none := by
    simp [check_model, hmodel]
  have hg : get_gen_prompt get_prompt conv req.messages
      = .error ("Unknown role: " ++ m.role) := by
    rw [hmsgs]
    simp [get_gen_prompt, heq]
  simp [create_chat_completion, hcm, hbias, hg]

/-- Witness for C3 (amended) at the concrete "narrator" request. -/
theorem c3_unknown_role_uncaught_witness :
    ∃ m ∈ [ChatMessage.mk "narrator" "hi"], bad_role m ∧
      create_chat_completion "m" (fun _ => "") ⟨"", ("USER", "ASSISTANT"), []⟩
          (fun _ => []) ⟨none, none, none⟩ none "cmpl-1"
          ([] : List (RequestOutput Unit)) (fun _ => false)
          ⟨"m", Sum.inr [⟨"narrator", "hi"⟩], 1, 16, false, none⟩
        = (ChatOutcome.raised ("Unknown role: " ++ m.role), []) :=
  c3_unknown_role_uncaught "m" (fun _ => "") ⟨"", ("USER", "ASSISTANT"), []⟩
    (fun _ => []) ⟨none, none, none⟩ none "cmpl-1" [] (fun _ => false)
    ⟨"m", Sum.inr [⟨"narrator", "hi"⟩], 1, 16, false, none⟩
    [⟨"narrator", "hi"⟩] rfl rfl rfl
    ⟨⟨"narrator", "hi"⟩, List.mem_cons_self _ _,
      by decide, by decide, by decide⟩

/-! ## Drain-loop lemmas -/

theorem drain_loop_no_disconnect {α : Type} {is_disconnected : Nat → Bool}
    (h : ∀ j, is_disconnected j = false) :
    ∀ (ss : List (RequestOutput α)) (final : RequestOutput α), ss.getLast? = some final →
      ∀ acc k, drain_loop is_disconnected acc k ss
        = .completed (some final) (k + ss.length) := by
  intro ss
  induction ss with
  | nil =>
    intro final hf acc k
    simp at hf
  | cons res rest ih =>
    intro final hf acc k
    simp only [drain_loop, h k]
    rw [if_neg (by simp)]
    cases rest with
    | nil =>
      simp only [List.getLast?_singleton, Option.some.injEq] at hf
      subst hf
      simp [drain_loop]
    | cons b t =>
      rw [List.getLast?_cons_cons] at hf
      rw [ih final hf (some res) (k + 1)]
      have harith : k + 1 + (b :: t).length = k + (res :: b :: t).length := by
        simp [List.length_cons]
        omega
      rw [harith]

theorem drain_loop_disconnect {α : Type} {is_disconnected : Nat → Bool} :
    ∀ (ss : List (RequestOutput α)) (j k : Nat), j < ss.length →
      is_disconnected (k + j) = true → (∀ i, i < j → is_disconnected (k + i) = false) →
      ∀ acc, drain_loop is_disconnected acc k ss = .disconnected (k + j + 1) := by
  intro ss
  induction ss with
  | nil =>
    intro j k hj _ _ _
    simp at hj
  | cons res rest ih =>
    intro j k hj hd hmin acc
    cases j with
    | zero =>
      have h0 : is_disconnected k = true := by simpa using hd
      simp only [drain_loop]
      rw [if_pos h0]
    | succ j' =>
      have h0 : is_disconnected k = false := by
        have := hmin 0 (Nat.succ_pos j')
        simpa using this
      simp only [drain_loop, h0]
      rw [if_neg (by simp)]
      have hd' : is_disconnected (k + 1 + j') = true := by
        rw [show k + 1 + j' = k + (j' + 1) from by omega]
        exact hd
      have hmin' : ∀ i, i < j' → is_disconnected (k + 1 + i) = false := by
        intro i hi
        rw [show k + 1 + i = k + (i + 1) from by omega]
        exact hmin (i + 1) (by omega)
      rw [ih j' (k + 1) (by simpa using hj) hd' hmin' (some res)]
      rw [show k + 1 + j' + 1 = k + (j' + 1) + 1 from by omega]

/-- C5: for a validated text-completion request, (a) the computed streaming
decision is exactly `stream ∧ (best_of unset ∨ best_of = n) ∧ ¬beam search`;
(b) the handler returns the true-streaming shape exactly when that decision
is true; and (c) when the client asked for streaming but the decision is
false, the drained aggregate is delivered through the fake-stream path as
exactly one data event holding the full response followed by the `[DONE]`
terminator. -/
theorem c5_stream_decision {α : Type} (served_model : String) (tok : Nat → String)
    (request_id : String) (snapshots : List (RequestOutput α))
    (is_disconnected : Nat → Bool) (req : CompletionRequest) (p : String)
    (hmodel : req.model = served_model) (hecho : req.echo = false)
    (hsuffix : req.suffix = none) (hbias : req.logit_bias = none)
    (hprompt : prompt_of req.prompt = .ok p) :
    (completion_will_stream req
      = (req.stream && (req.best_of.isNone || req.best_of == some req.n)
          && !req.use_beam_search))
    ∧ ((create_completion served_model tok none request_id snapshots is_disconnected
          req).1.is_streaming = true ↔ completion_will_stream req = true)
    ∧ (req.stream = true → completion_will_stream req = false →
        (∀ j, is_disconnected j = false) →
        ∀ final, snapshots.getLast? = some final →
          create_completion served_model tok none request_id snapshots is_disconnected
              req
            = (.fake_streaming
                 [SSEFrame.data (completion_response_of tok req.logprobs.isSome final),
                  SSEFrame.done],
               [EngineCall.generate request_id])) := by
  have hcm : check_model served_model req.model = none := by
    simp [check_model, hmodel]
  refine ⟨rfl, ?_, ?_⟩
  · by_cases hws : completion_will_stream req = true
    · simp [create_completion, hcm, hecho, hsuffix, hbias, hprompt, hws,
        CompletionOutcome.is_streaming]
    · have hws' : completion_will_stream req = false := Bool.eq_false_iff.mpr hws
      rw [hws']
      simp only [Bool.false_eq_true, iff_false]
      intro habs
      rcases hd : drain_loop is_disconnected (none : Option (RequestOutput α)) 0
          snapshots with c | ⟨ofinal, c⟩
      · simp [create_completion, hcm, hecho, hsuffix, hbias, hprompt, hws', hd,
          CompletionOutcome.is_streaming] at habs
      · rcases ofinal with _ | final
        · simp [create_completion, hcm, hecho, hsuffix, hbias, hprompt, hws', hd,
            CompletionOutcome.is_streaming] at habs
        · by_cases hs : req.stream = true <;>
            simp [create_completion, hcm, hecho, hsuffix, hbias, hprompt, hws', hd, hs,
              CompletionOutcome.is_streaming] at habs
  · intro hstream hnostream hnd final hlast
    have hd := drain_loop_no_disconnect hnd snapshots final hlast none 0
    simp [create_completion, hcm, hecho, hsuffix, hbias, hprompt, hnostream, hd,
      hstream, fake_stream_generator]

/-- Witness for C5: `stream = true`, `best_of = 4`, `n = 1` on completions is
delivered via the fake-stream path: one data event with the aggregate, then
the terminator. -/
theorem c5_stream_decision_witness :
    create_completion "m" (fun _ => "") none "cmpl-1"
        ([⟨[1, 2], [⟨0, "hi", [5, 6], [], some "stop"⟩]⟩] : List (RequestOutput Unit))
        (fun _ => false)
        ⟨"m", Sum.inl "p", 1, some 4, false, none, none, true, 16, none, false⟩
      = (CompletionOutcome.fake_streaming
           [SSEFrame.data (completion_response_of (fun _ => "") false
              ⟨[1, 2], [⟨0, "hi", [5, 6], [], some "stop"⟩]⟩),
            SSEFrame.done],
         [EngineCall.generate "cmpl-1"]) := by
  have h := (c5_stream_decision "m" (fun _ => "") "cmpl-1"
    ([⟨[1, 2], [⟨0, "hi", [5, 6], [], some "stop"⟩]⟩] : List (RequestOutput Unit))
    (fun _ => false)
    ⟨"m", Sum.inl "p", 1, some 4, false, none, none, true, 16, none, false⟩
    "p" rfl rfl rfl rfl rfl).2.2 rfl (by decide) (fun _ => rfl)
    ⟨[1, 2], [⟨0, "hi", [5, 6], [], some "stop"⟩]⟩ rfl
  exact h

/-- C7: both non-streaming handlers, when they drain to completion, return
the aggregate built from the last snapshot, whose usage reports
`prompt_tokens` = length of the prompt token ids, `completion_tokens` = the
sum over output indices of the per-index generated token count, and
`total_tokens` = their sum. -/
theorem c7_usage_totals {α : Type} (served_model : String)
    (get_prompt : Conversation → String) (conv : Conversation)
    (tokenize : String → List Nat) (hf : HFConfig) (tok : Nat → String)
    (request_id : String) (snapshots : List (RequestOutput α))
    (is_disconnected : Nat → Bool) (creq : ChatCompletionRequest)
    (dreq : CompletionRequest) (prompt p : String) (final : RequestOutput α)
    (hnd : ∀ j, is_disconnected j = false)
    (hlast : snapshots.getLast? = some final)
    (hcmodel : creq.model = served_model) (hcbias : creq.logit_bias = none)
    (hgp : get_gen_prompt get_prompt conv creq.messages = .ok prompt)
    (hcl : check_length tokenize hf creq.max_tokens prompt = none)
    (hcstream : creq.stream = false)
    (hdmodel : dreq.model = served_model) (hdecho : dreq.echo = false)
    (hdsuffix : dreq.suffix = none) (hdbias : dreq.logit_bias = none)
    (hdprompt : prompt_of dreq.prompt = .ok p) (hdstream : dreq.stream = false) :
    create_chat_completion served_model get_prompt conv tokenize hf none request_id
        snapshots is_disconnected creq
      = (.response (chat_response_of final), [EngineCall.generate request_id])
    ∧ (chat_response_of final).usage
      = ⟨final.prompt_token_ids.length,
         (final.outputs.map (fun o => o.token_ids.length)).sum,
         final.prompt_token_ids.length
           + (final.outputs.map (fun o => o.token_ids.length)).sum⟩
    ∧ create_completion served_model tok none request_id snapshots is_disconnected dreq
      = (.response (completion_response_of tok dreq.logprobs.isSome final),
         [EngineCall.generate request_id])
    ∧ (completion_response_of tok dreq.logprobs.isSome final).usage
      = ⟨final.prompt_token_ids.length,
         (final.outputs.map (fun o => o.token_ids.length)).sum,
         final.prompt_token_ids.length
           + (final.outputs.map (fun o => o.token_ids.length)).sum⟩ := by
  have hd := drain_loop_no_disconnect hnd snapshots final hlast none 0
  have hcm : check_model served_model creq.model = none := by
    simp [check_model, hcmodel]
  have hdm : check_model served_model dreq.model = none := by
    simp [check_model, hdmodel]
  have hws : completion_will_stream dreq = false := by
    simp [completion_will_stream, hdstream]
  refine ⟨?_, rfl, ?_, rfl⟩
  · simp [create_chat_completion, hcm, hcbias, hgp, hcl, hcstream, hd]
  · simp [create_completion, hdm, hdecho, hdsuffix, hdbias, hdprompt, hws, hdstream, hd]

/-- Witness for C7: a drained two-output snapshot (3 prompt tokens, 2 + 1
generated tokens) yields usage (3, 3, 6) on both routes. -/
theorem c7_usage_totals_witness :
    create_chat_completion "m" (fun _ => "") ⟨"", ("USER", "ASSISTANT"), []⟩
        (fun _ => [1]) ⟨none, none, none⟩ none "cmpl-1"
        ([⟨[7, 8, 9], [⟨0, "ab", [4, 5], [], some "stop"⟩,
           ⟨1, "c", [6], [], some "length"⟩]⟩] : List (RequestOutput Unit))
        (fun _ => false) ⟨"m", Sum.inl "hello", 2, 16, false, none⟩
      = (.response (chat_response_of
           (⟨[7, 8, 9], [⟨0, "ab", [4, 5], [], some "stop"⟩,
             ⟨1, "c", [6], [], some "length"⟩]⟩ : RequestOutput Unit)),
         [EngineCall.generate "cmpl-1"])
    ∧ (chat_response_of
        (⟨[7, 8, 9], [⟨0, "ab", [4, 5], [], some "stop"⟩,
          ⟨1, "c", [6], [], some "length"⟩]⟩ : RequestOutput Unit)).usage
      = ⟨3, 3, 6⟩
    ∧ create_completion "m" (fun _ => "") none "cmpl-1"
        ([⟨[7, 8, 9], [⟨0, "ab", [4, 5], [], some "stop"⟩,
           ⟨1, "c", [6], [], some "length"⟩]⟩] : List (RequestOutput Unit))
        (fun _ => false)
        ⟨"m", Sum.inl "hello", 2, none, false, none, none, false, 16, none, false⟩
      = (.response (completion_response_of (fun _ => "") false
           (⟨[7, 8, 9], [⟨0, "ab", [4, 5], [], some "stop"⟩,
             ⟨1, "c", [6], [], some "length"⟩]⟩ : RequestOutput Unit)),
         [EngineCall.generate "cmpl-1"]) := by
  have h := c7_usage_totals "m" (fun _ => "") ⟨"", ("USER", "ASSISTANT"), []⟩
    (fun _ => [1]) ⟨none, none, none⟩ (fun _ => "") "cmpl-1"
    ([⟨[7, 8, 9], [⟨0, "ab", [4, 5], [], some "stop"⟩,
       ⟨1, "c", [6], [], some "length"⟩]⟩] : List (RequestOutput Unit))
    (fun _ => false) ⟨"m", Sum.inl "hello", 2, 16, false, none⟩
    ⟨"m", Sum.inl "hello", 2, none, false, none, none, false, 16, none, false⟩
    "hello" "hello"
    ⟨[7, 8, 9], [⟨0, "ab", [4, 5], [], some "stop"⟩, ⟨1, "c", [6], [], some "length"⟩]⟩
    (fun _ => rfl) rfl rfl rfl rfl (by decide) rfl rfl rfl rfl rfl rfl rfl
  exact ⟨h.1, h.2.1.trans (by decide), h.2.2.1⟩

/-- C8: when the client of a non-streaming request disconnects at snapshot
`j` (the first poll returning true), both handlers award the engine exactly
one abort call carrying the request's id — the call log is precisely
`[generate, abort]` — the drain loop stops having consumed only `j + 1` of
the snapshots, and the HTTP response is the 400 error "Client disconnected". -/
theorem c8_disconnect_single_abort {α : Type} (served_model : String)
    (get_prompt : Conversation → String) (conv : Conversation)
    (tokenize : String → List Nat) (hf : HFConfig) (tok : Nat → String)
    (request_id : String) (snapshots : List (RequestOutput α))
    (is_disconnected : Nat → Bool) (creq : ChatCompletionRequest)
    (dreq : CompletionRequest) (prompt p : String) (j : Nat)
    (hj : j < snapshots.length) (hdj : is_disconnected j = true)
    (hmin : ∀ i, i < j → is_disconnected i = false)
    (hcmodel : creq.model = served_model) (hcbias : creq.logit_bias = none)
    (hgp : get_gen_prompt get_prompt conv creq.messages = .ok prompt)
    (hcl : check_length tokenize hf creq.max_tokens prompt = none)
    (hcstream : creq.stream = false)
    (hdmodel : dreq.model = served_model) (hdecho : dreq.echo = false)
    (hdsuffix : dreq.suffix = none) (hdbias : dreq.logit_bias = none)
    (hdprompt : prompt_of dreq.prompt = .ok p) (hdstream : dreq.stream = false) :
    create_chat_completion served_model get_prompt conv tokenize hf none request_id
        snapshots is_disconnected creq
      = (.error_response (create_error_response 400 "Client disconnected"),
         [EngineCall.generate request_id, EngineCall.abort request_id])
    ∧ create_completion served_model tok none request_id snapshots is_disconnected dreq
      = (.error_response (create_error_response 400 "Client disconnected"),
         [EngineCall.generate request_id, EngineCall.abort request_id])
    ∧ abort_count request_id
        [EngineCall.generate request_id, EngineCall.abort request_id] = 1
    ∧ drain_loop is_disconnected (none : Option (RequestOutput α)) 0 snapshots
      = .disconnected (j + 1)
    ∧ j + 1 ≤ snapshots.length := by
  have hd := drain_loop_disconnect snapshots j 0 hj (by simpa using hdj)
    (fun i hi => by simpa using hmin i hi) none
  rw [Nat.zero_add] at hd
  have hcm : check_model served_model creq.model = none := by
    simp [check_model, hcmodel]
  have hdm : check_model served_model dreq.model = none := by
    simp [check_model, hdmodel]
  have hws : completion_will_stream dreq = false := by
    simp [completion_will_stream, hdstream]
  refine ⟨?_, ?_, ?_, hd, by omega⟩
  · simp [create_chat_completion, hcm, hcbias, hgp, hcl, hcstream, hd]
  · simp [create_completion, hdm, hdecho, hdsuffix, hdbias, hdprompt, hws, hd]
  · simp [abort_count, List.filter_cons, beq_iff_eq]

/-- Witness for C8: 5 snapshots, disconnect first observed at snapshot
index 2 (after 2 snapshots were processed): one abort, 3 of 5 snapshots
consumed, "Client disconnected" returned. -/
theorem c8_disconnect_single_abort_witness :
    create_chat_completion "m" (fun _ => "") ⟨"", ("USER", "ASSISTANT"), []⟩
        (fun _ => [1]) ⟨none, none, none⟩ none "cmpl-1"
        (List.replicate 5 (⟨[9], []⟩ : RequestOutput Unit))
        (fun k => decide (2 ≤ k)) ⟨"m", Sum.inl "hello", 1, 16, false, none⟩
      = (.error_response (create_error_response 400 "Client disconnected"),
         [EngineCall.generate "cmpl-1", EngineCall.abort "cmpl-1"])
    ∧ abort_count "cmpl-1" [EngineCall.generate "cmpl-1", EngineCall.abort "cmpl-1"] = 1
    ∧ drain_loop (fun k => decide (2 ≤ k)) (none : Option (RequestOutput Unit)) 0
        (List.replicate 5 (⟨[9], []⟩ : RequestOutput Unit))
      = .disconnected 3 := by
  have h := c8_disconnect_single_abort "m" (fun _ => "") ⟨"", ("USER", "ASSISTANT"), []⟩
    (fun _ => [1]) ⟨none, none, none⟩ (fun _ => "") "cmpl-1"
    (List.replicate 5 (⟨[9], []⟩ : RequestOutput Unit)) (fun k => decide (2 ≤ k))
    ⟨"m", Sum.inl "hello", 1, 16, false, none⟩
    ⟨"m", Sum.inl "hello", 1, none, false, none, none, false, 16, none, false⟩
    "hello" "hello" 2 (by decide) (by decide)
    (fun i hi => by
      simp only [decide_eq_false_iff_not]
      omega)
    rfl rfl rfl (by decide) rfl rfl rfl rfl rfl rfl rfl
  exact ⟨h.1, h.2.2.1, h.2.2.2.1⟩

/-- C10: on every true-streaming response — chat, or completions with the
computed stream decision true — the handler attaches exactly one background
task, `engine.abort(request_id)`, to the `StreamingResponse`; FastAPI runs
background tasks once the response body has been fully sent, so the abort
runs exactly once after the stream ends, also on natural completion, and the
handler itself awaits no abort (its own call log is just the generate). -/
theorem c10_background_abort {α : Type} (served_model : String)
    (get_prompt : Conversation → String) (conv : Conversation)
    (tokenize : String → List Nat) (hf : HFConfig) (tok : Nat → String)
    (request_id : String) (snapshots : List (RequestOutput α))
    (is_disconnected : Nat → Bool) (creq : ChatCompletionRequest)
    (dreq : CompletionRequest) (prompt p : String)
    (hcmodel : creq.model = served_model) (hcbias : creq.logit_bias = none)
    (hgp : get_gen_prompt get_prompt conv creq.messages = .ok prompt)
    (hcl : check_length tokenize hf creq.max_tokens prompt = none)
    (hcstream : creq.stream = true)
    (hdmodel : dreq.model = served_model) (hdecho : dreq.echo = false)
    (hdsuffix : dreq.suffix = none) (hdbias : dreq.logit_bias = none)
    (hdprompt : prompt_of dreq.prompt = .ok p)
    (hdstream : completion_will_stream dreq = true) :
    create_chat_completion served_model get_prompt conv tokenize hf none request_id
        snapshots is_disconnected creq
      = (.streaming (chat_stream_frames creq.n snapshots) [EngineCall.abort request_id],
         [EngineCall.generate request_id])
    ∧ create_completion served_model tok none request_id snapshots is_disconnected dreq
      = (.streaming (completion_stream_frames tok dreq.logprobs.isSome dreq.n snapshots)
           [EngineCall.abort request_id],
         [EngineCall.generate request_id])
    ∧ abort_count request_id [EngineCall.abort request_id] = 1
    ∧ abort_count request_id [EngineCall.generate request_id] = 0 := by
  have hcm : check_model served_model creq.model = none := by
    simp [check_model, hcmodel]
  have hdm : check_model served_model dreq.model = none := by
    simp [check_model, hdmodel]
  refine ⟨?_, ?_, ?_, ?_⟩
  · simp [create_chat_completion, hcm, hcbias, hgp, hcl, hcstream]
  · simp [create_completion, hdm, hdecho, hdsuffix, hdbias, hdprompt, hdstream]
  · simp [abort_count, List.filter_cons, beq_iff_eq]
  · simp [abort_count, List.filter_cons, beq_iff_eq]

/-- Witness for C10 at a concrete streaming request on both routes. -/
theorem c10_background_abort_witness :
    create_chat_completion "m" (fun _ => "") ⟨"", ("USER", "ASSISTANT"), []⟩
        (fun _ => [1]) ⟨none, none, none⟩ none "cmpl-1" two_snapshots
        (fun _ => false) ⟨"m", Sum.inl "hello", 1, 16, true, none⟩
      = (.streaming (chat_stream_frames 1 two_snapshots) [EngineCall.abort "cmpl-1"],
         [EngineCall.generate "cmpl-1"])
    ∧ create_completion "m" (fun _ => "") none "cmpl-1" two_snapshots (fun _ => false)
        ⟨"m", Sum.inl "hello", 1, none, false, none, none, true, 16, none, false⟩
      = (.streaming (completion_stream_frames (fun _ => "") false 1 two_snapshots)
           [EngineCall.abort "cmpl-1"],
         [EngineCall.generate "cmpl-1"])
    ∧ abort_count "cmpl-1" [EngineCall.abort "cmpl-1"] = 1 := by
  have h := c10_background_abort "m" (fun _ => "") ⟨"", ("USER", "ASSISTANT"), []⟩
    (fun _ => [1]) ⟨none, none, none⟩ (fun _ => "") "cmpl-1" two_snapshots
    (fun _ => false) ⟨"m", Sum.inl "hello", 1, 16, true, none⟩
    ⟨"m", Sum.inl "hello", 1, none, false, none, none, true, 16, none, false⟩
    "hello" "hello" rfl rfl rfl (by decide) rfl rfl rfl rfl rfl rfl rfl
  exact ⟨h.1, h.2.1, h.2.2.1⟩

/-! ## Closed forms for `create_logprobs` -/

theorem create_logprobs_loop_tokens {α : Type} (tok : Nat → String) (init : Nat)
    (pairs : List (Nat × List (Nat × α))) :
    ∀ acc ll, (create_logprobs_loop tok init pairs acc ll).tokens
      = acc.tokens ++ pairs.map (fun p => tok p.1) := by
  induction pairs with
  | nil => intro acc ll; simp [create_logprobs_loop]
  | cons p rest ih =>
    intro acc ll
    cases p with
    | mk token_id id_logprob => simp [create_logprobs_loop, ih]

theorem create_logprobs_loop_token_logprobs {α : Type} (tok : Nat → String) (init : Nat)
    (pairs : List (Nat × List (Nat × α))) :
    ∀ acc ll, (create_logprobs_loop tok init pairs acc ll).token_logprobs
      = acc.token_logprobs ++ pairs.map (fun p => p.2.lookup p.1) := by
  induction pairs with
  | nil => intro acc ll; simp [create_logprobs_loop]
  | cons p rest ih =>
    intro acc ll
    cases p with
    | mk token_id id_logprob => simp [create_logprobs_loop, ih]

theorem create_logprobs_loop_top_logprobs {α : Type} (tok : Nat → String) (init : Nat)
    (pairs : List (Nat × List (Nat × α))) :
    ∀ acc ll, (create_logprobs_loop tok init pairs acc ll).top_logprobs
      = acc.top_logprobs ++ pairs.map (fun p => p.2.map (fun q => (tok q.1, q.2))) := by
  induction pairs with
  | nil => intro acc ll; simp [create_logprobs_loop]
  | cons p rest ih =>
    intro acc ll
    cases p with
    | mk token_id id_logprob => simp [create_logprobs_loop, ih]

theorem create_logprobs_loop_text_offset {α : Type} (tok : Nat → String) (init : Nat)
    (pairs : List (Nat × List (Nat × α))) :
    ∀ acc ll, (create_logprobs_loop tok init pairs acc ll).text_offset
      = acc.text_offset ++
        offsets_from tok
          (match acc.text_offset.getLast? with
           | none => init
           | some last => last + ll) (pairs.map (fun p => p.1)) := by
  induction pairs with
  | nil => intro acc ll; simp [create_logprobs_loop, offsets_from]
  | cons p rest ih =>
    intro acc ll
    cases p with
    | mk token_id id_logprob =>
      simp only [create_logprobs_loop]
      rw [ih]
      simp [offsets_from]

theorem create_logprobs_tokens {α : Type} (tok : Nat → String) (token_ids : List Nat)
    (id_logprobs : List (List (Nat × α))) (init : Nat) :
    (create_logprobs tok token_ids id_logprobs init).tokens
      = (token_ids.zip id_logprobs).map (fun p => tok p.1) := by
  rw [create_logprobs, create_logprobs_loop_tokens]
  rfl

theorem create_logprobs_token_logprobs {α : Type} (tok : Nat → String)
    (token_ids : List Nat) (id_logprobs : List (List (Nat × α))) (init : Nat) :
    (create_logprobs tok token_ids id_logprobs init).token_logprobs
      = (token_ids.zip id_logprobs).map (fun p => p.2.lookup p.1) := by
  rw [create_logprobs, create_logprobs_loop_token_logprobs]
  rfl

theorem create_logprobs_top_logprobs {α : Type} (tok : Nat → String)
    (token_ids : List Nat) (id_logprobs : List (List (Nat × α))) (init : Nat) :
    (create_logprobs tok token_ids id_logprobs init).top_logprobs
      = (token_ids.zip id_logprobs).map (fun p => p.2.map (fun q => (tok q.1, q.2))) := by
  rw [create_logprobs, create_logprobs_loop_top_logprobs]
  rfl

theorem create_logprobs_text_offset {α : Type} (tok : Nat → String)
    (token_ids : List Nat) (id_logprobs : List (List (Nat × α))) (init : Nat) :
    (create_logprobs tok token_ids id_logprobs init).text_offset
      = offsets_from tok init ((token_ids.zip id_logprobs).map (fun p => p.1)) := by
  rw [create_logprobs, create_logprobs_loop_text_offset]
  rfl

theorem offsets_from_length (tok : Nat → String) :
    ∀ (ids : List Nat) (s : Nat), (offsets_from tok s ids).length = ids.length := by
  intro ids
  induction ids with
  | nil => intro s; rfl
  | cons x rest ih => intro s; simp [offsets_from, ih]

theorem offsets_from_step (tok : Nat → String) :
    ∀ (ids : List Nat) (s k : Nat), k + 1 < ids.length →
      (offsets_from tok s ids).getD (k + 1) 0
        = (offsets_from tok s ids).getD k 0 + (tok (ids.getD k 0)).length := by
  intro ids
  induction ids with
  | nil =>
    intro s k h
    simp at h
  | cons x rest ih =>
    intro s k h
    cases k with
    | zero =>
      cases rest with
      | nil => simp at h
      | cons y t => simp [offsets_from, List.getD_cons_zero, List.getD_cons_succ]
    | succ k' =>
      have h' : k' + 1 < rest.length := by simpa using h
      have := ih (s + (tok x).length) k' h'
      simpa [offsets_from, List.getD_cons_succ] using this

theorem getD_map_lt {β γ : Type} (f : β → γ) (l : List β) (k : Nat) (d : β) (e : γ)
    (h : k < l.length) : (l.map f).getD k e = f (l.getD k d) := by
  rw [List.getD_eq_getElem?_getD, List.getD_eq_getElem?_getD, List.getElem?_map]
  rw [List.getElem?_eq_getElem h]
  rfl

/-- C9: a streaming completions delta with logprobs requested carries the
fragment `create_logprobs` applied to the token-id and logprob arrays sliced
from `previous_num_tokens[i]` onward with initial text offset
`len(previous_texts[i])`; and for every `create_logprobs` result the four
lists have equal length (one entry per zipped token position), the first
text offset is the initial offset, and each later offset exceeds the
previous one by the char length of the previously rendered token string. -/
theorem c9_logprobs_slicing {α : Type} (tok : Nat → String) (st : StreamState)
    (o : CompletionOutput α) :
    (completion_step tok true st o).2.head?
      = some (CompletionFrame.delta o.index
          (o.text.drop (st.previous_texts.getD o.index "").length)
          (some (create_logprobs tok
            (o.token_ids.drop (st.previous_num_tokens.getD o.index 0))
            (o.logprobs.drop (st.previous_num_tokens.getD o.index 0))
            (st.previous_texts.getD o.index "").length))
          none)
    ∧ ∀ (token_ids : List Nat) (id_logprobs : List (List (Nat × α))) (init : Nat),
        (create_logprobs tok token_ids id_logprobs init).tokens.length
          = (token_ids.zip id_logprobs).length
        ∧ (create_logprobs tok token_ids id_logprobs init).token_logprobs.length
          = (token_ids.zip id_logprobs).length
        ∧ (create_logprobs tok token_ids id_logprobs init).text_offset.length
          = (token_ids.zip id_logprobs).length
        ∧ (create_logprobs tok token_ids id_logprobs init).top_logprobs.length
          = (token_ids.zip id_logprobs).length
        ∧ (0 < (token_ids.zip id_logprobs).length →
            (create_logprobs tok token_ids id_logprobs init).text_offset.getD 0 0 = init)
        ∧ ∀ k, k + 1 < (token_ids.zip id_logprobs).length →
            (create_logprobs tok token_ids id_logprobs init).text_offset.getD (k + 1) 0
              = (create_logprobs tok token_ids id_logprobs init).text_offset.getD k 0
                + ((create_logprobs tok token_ids id_logprobs init).tokens.getD k "").length := by
  constructor
  · cases hfr : o.finish_reason <;> simp [completion_step, hfr]
  · intro token_ids id_logprobs init
    refine ⟨?_, ?_, ?_, ?_, ?_, ?_⟩
    · rw [create_logprobs_tokens, List.length_map]
    · rw [create_logprobs_token_logprobs, List.length_map]
    · rw [create_logprobs_text_offset, offsets_from_length, List.length_map]
    · rw [create_logprobs_top_logprobs, List.length_map]
    · intro hpos
      rw [create_logprobs_text_offset]
      rcases hz : token_ids.zip id_logprobs with _ | ⟨z, zs⟩
      · rw [hz] at hpos
        simp at hpos
      · rfl
    · intro k hk
      rw [create_logprobs_text_offset, create_logprobs_tokens]
      have hk' : k < ((token_ids.zip id_logprobs).map (fun p => p.1)).length := by
        rw [List.length_map]
        omega
      have hstep := offsets_from_step tok ((token_ids.zip id_logprobs).map (fun p => p.1))
        init k (by rw [List.length_map]; exact hk)
      rw [hstep]
      congr 1
      have h1 : ((token_ids.zip id_logprobs).map (fun p => p.1)).getD k 0
          = ((token_ids.zip id_logprobs).getD k (0, [])).1 := by
        exact getD_map_lt _ _ _ _ _ (by rw [List.length_map] at hk'; exact hk')
      have h2 : ((token_ids.zip id_logprobs).map (fun p => tok p.1)).getD k ""
          = tok ((token_ids.zip id_logprobs).getD k (0, [])).1 := by
        exact getD_map_lt _ _ _ _ _ (by rw [List.length_map] at hk'; exact hk')
      rw [h1, h2]

/-- Witness for C9 on concrete data: previous token count 1 slices the
arrays to `[11, 12]`; the fragment's text offsets start at the previously
emitted length 2 and advance by the rendered token length. -/
theorem c9_logprobs_slicing_witness :
    (completion_step (fun i => toString i) true ⟨["ab"], [1]⟩
        (⟨0, "abcd", [10, 11, 12],
          [[(10, (5 : Int))], [(11, 6)], [(12, 7)]], none⟩ : CompletionOutput Int)).2.head?
      = some (CompletionFrame.delta 0 "cd"
          (some (create_logprobs (fun i => toString i) [11, 12]
            [[(11, (6 : Int))], [(12, 7)]] 2))
          none)
    ∧ (create_logprobs (fun i => toString i) [11, 12]
        [[(11, (6 : Int))], [(12, 7)]] 2).text_offset.getD 0 0 = 2
    ∧ (create_logprobs (fun i => toString i) [11, 12]
          [[(11, (6 : Int))], [(12, 7)]] 2).text_offset.getD 1 0
      = (create_logprobs (fun i => toString i) [11, 12]
          [[(11, (6 : Int))], [(12, 7)]] 2).text_offset.getD 0 0
        + ((create_logprobs (fun i => toString i) [11, 12]
            [[(11, (6 : Int))], [(12, 7)]] 2).tokens.getD 0 "").length := by
  have h := c9_logprobs_slicing (fun i => toString i) ⟨["ab"], [1]⟩
    (⟨0, "abcd", [10, 11, 12],
      [[(10, (5 : Int))], [(11, 6)], [(12, 7)]], none⟩ : CompletionOutput Int)
  refine ⟨h.1.trans (by decide), ?_, ?_⟩
  · exact (h.2 [11, 12] [[(11, (6 : Int))], [(12, 7)]] 2).2.2.2.2.1 (by decide)
  · exact (h.2 [11, 12] [[(11, (6 : Int))], [(12, 7)]] 2).2.2.2.2.2 0 (by decide)

end RunpodVLLM
